import Mathlib

/-!
Verification of the track-signaling and data-track subsystem of a
client-side real-time communication library (twilio-video.js).

Shallow embedding notes:
- JavaScript objects with mutable fields become Lean structures; a method
  that mutates `this` becomes a function returning the post-state.
- A method call is recorded as a `Meth` value: the post-state, whether an
  "updated" event was emitted synchronously during the call, and whether
  the method's JavaScript return value is `this` (the entity itself).
- The deferred transport-object slot (a single-resolution promise) is an
  `Option τ` field; the promise returned by the getter is modelled by its
  eventual resolution after a list of further operations runs.
- JavaScript `null` becomes `Option.none`; plain-object wire records become
  structures; the snapshot object built by getState is an association list
  of key/value pairs so that presence and absence of keys is observable.
-/

namespace TwilioVideo

/-- Wire-format trackState record `{id, enabled, kind, name, sid}` pushed by
the signaling server (spec section 6; used by the RemoteTrackV2 constructor
and by both update methods). -/
structure TrackState where
  id : String
  enabled : Bool
  kind : String
  name : String
  sid : String
deriving DecidableEq, Repr

/-- Result of one method call on a signaling entity: the entity's state after
the call, whether one "updated" event was emitted during the call, and
whether the method returned `this`. -/
structure Meth (α : Type) where
  post : α
  emitted : Bool
  returnsSelf : Bool
deriving DecidableEq, Repr

/-- Modelled from the spec: the TrackSignaling base class
(lib/signaling/track.js) is not in the source tree; fields follow the data
model of spec section 3: immutable id, kind, name; mutable isEnabled; sid
(unset = none for a local publication, set at construction for a remote
track); and the deferred transport-object slot, empty until resolved.
τ is the transport-object type (MediaStreamTrack or DataTrackTransceiver). -/
structure TrackSignaling (τ : Type) where
  id : String
  kind : String
  name : String
  isEnabled : Bool
  sid : Option String
  transport : Option τ
deriving DecidableEq, Repr

/-- Modelled from the spec: TrackSignaling#enable (lib/signaling/track.js is
not in the source tree). Spec section 4.1: `enable(enabled = true)` sets
isEnabled to the given boolean (default true when the argument is absent);
if the new value differs from the current value it updates state and emits
one "updated" notification, otherwise no notification and no mutation;
returns the entity itself. -/
def TrackSignaling.enable (s : TrackSignaling τ) (isEnabledArg : Option Bool) :
    Meth (TrackSignaling τ) :=
  let b := isEnabledArg.getD true
  if s.isEnabled = b then ⟨s, false, true⟩
  else ⟨{ s with isEnabled := b }, true, true⟩

/-- Modelled from the spec: TrackSignaling#disable, spec section 4.1:
equivalent to `enable(false)`. -/
def TrackSignaling.disable (s : TrackSignaling τ) : Meth (TrackSignaling τ) :=
  s.enable (some false)

/-- Modelled from the spec: TrackSignaling#setMediaStreamTrackOrDataTrackTransceiver
(lib/signaling/track.js is not in the source tree; named after the method
exercised by the RemoteTrackV2 unit tests). Spec sections 4.2 and 5: resolves
the deferred transport-object slot to the argument if unresolved; a silent
no-op if already resolved; emits no notification; returns the entity itself. -/
def TrackSignaling.setMediaStreamTrackOrDataTrackTransceiver
    (s : TrackSignaling τ) (x : τ) : Meth (TrackSignaling τ) :=
  if s.transport.isSome then ⟨s, false, true⟩
  else ⟨{ s with transport := some x }, false, true⟩

/-- Modelled from the spec: TrackSignaling#setSid (lib/signaling/track.js and
lib/signaling/localtrackpublication.js are not in the source tree; the caller
LocalTrackPublicationV2#update is in src). Spec sections 3 and 4.1/4.3: sid is
mutated exactly once from unset to a concrete value; a later call is an
idempotent no-op; no notification is emitted for changes to sid; returns the
entity itself. -/
def TrackSignaling.setSid (s : TrackSignaling τ) (sid : String) :
    Meth (TrackSignaling τ) :=
  if s.sid = none then ⟨{ s with sid := some sid }, false, true⟩
  else ⟨s, false, true⟩

namespace RemoteTrackV2

/-- Modelled from the spec: the RemoteTrackV2 constructor
(lib/signaling/v2/remotetrack.js is not in the source tree; its unit tests
are). Spec section 4.2: constructed from a trackState record
`{id, kind, name, sid, enabled}`; `enabled` determines the initial isEnabled;
the transport slot starts empty. -/
def mk (τ : Type) (r : TrackState) : TrackSignaling τ :=
  { id := r.id
    kind := r.kind
    name := r.name
    isEnabled := r.enabled
    sid := some r.sid
    transport := none }

/-- Modelled from the spec: RemoteTrackV2#update
(lib/signaling/v2/remotetrack.js is not in the source tree; its unit tests
are). Spec section 4.2: reconciles the record's enabled field against the
current isEnabled per the section 4.1 notification discipline; id, kind,
name, sid are not re-applied; returns the entity itself. -/
def update (s : TrackSignaling τ) (r : TrackState) : Meth (TrackSignaling τ) :=
  s.enable (some r.enabled)

end RemoteTrackV2

/-- One call in a sequence of operations on a track-signaling entity:
enable (with an optional boolean argument), disable, a server-pushed update,
or the transport layer resolving the deferred transport-object slot. -/
inductive SigOp (τ : Type) where
  | enable (b : Option Bool)
  | disable
  | update (r : TrackState)
  | setTransceiver (x : τ)
deriving Repr

/-- Dispatch one operation on a track-signaling entity. -/
def stepOp (s : TrackSignaling τ) : SigOp τ → Meth (TrackSignaling τ)
  | .enable b => s.enable b
  | .disable => s.disable
  | .update r => RemoteTrackV2.update s r
  | .setTransceiver x => s.setMediaStreamTrackOrDataTrackTransceiver x

/-- State of the entity after running a whole sequence of operations. -/
def runOps (s : TrackSignaling τ) : List (SigOp τ) → TrackSignaling τ
  | [] => s
  | op :: ops => runOps (stepOp s op).post ops

/-- Whether each call of a sequence emitted an "updated" notification, in
call order. -/
def emitTrace (s : TrackSignaling τ) : List (SigOp τ) → List Bool
  | [] => []
  | op :: ops => (stepOp s op).emitted :: emitTrace (stepOp s op).post ops

/-- Value of isEnabled immediately after each call of a sequence, in call
order. -/
def enabledTrace (s : TrackSignaling τ) : List (SigOp τ) → List Bool
  | [] => []
  | op :: ops => (stepOp s op).post.isEnabled :: enabledTrace (stepOp s op).post ops

/-- Given the value held before the first entry, marks for each entry of a
boolean trace whether it differs from the entry immediately before it. -/
def flips (prev : Bool) : List Bool → List Bool
  | [] => []
  | b :: bs => (b != prev) :: flips b bs

/-- Eventual resolution of the promise returned by
getMediaStreamTrackOrDataTrackTransceiver (modelled from the spec:
lib/signaling/track.js is not in the source tree). The getter returns a
deferred promise for the transport-object slot; its resolution, observed
after the further operations ops have run, is the slot's value at that
point (none while still pending). Spec sections 4.2 and 5: every caller,
whether it asked before or after resolution, receives the single value the
slot first resolved to. -/
def getTransceiverResolution (s : TrackSignaling τ) (ops : List (SigOp τ)) :
    Option τ :=
  (runOps s ops).transport

/-- A JavaScript value appearing in the getState snapshot object: a boolean
or a string. -/
inductive JsVal where
  | bool (v : Bool)
  | str (v : String)
deriving DecidableEq, Repr

namespace LocalTrackPublicationV2

/-- Embeds LocalTrackPublicationV2.prototype.getState
(src/lib/signaling/v2/localtrackpublication.js, lines 28-35): builds a fresh
plain object with exactly the keys enabled, id, kind, name, read from the
entity's current state. The JavaScript object literal is modelled as an
association list so that key presence is observable. -/
def getState (s : TrackSignaling τ) : List (String × JsVal) :=
  [("enabled", JsVal.bool s.isEnabled),
   ("id", JsVal.str s.id),
   ("kind", JsVal.str s.kind),
   ("name", JsVal.str s.name)]

/-- Embeds LocalTrackPublicationV2.prototype.update
(src/lib/signaling/v2/localtrackpublication.js, lines 44-47):
`this.setSid(track.sid); return this;`. setSid itself is modelled from the
spec (see TrackSignaling.setSid). -/
def update (s : TrackSignaling τ) (r : TrackState) : Meth (TrackSignaling τ) :=
  let m := s.setSid r.sid
  ⟨m.post, m.emitted, true⟩

end LocalTrackPublicationV2

/-- The external DataChannelSender collaborator (lib/data/sender.js is
external to the core, spec section 2): only its construction-time identifier
is relevant to this subsystem. -/
structure DataTrackSender where
  id : String
deriving DecidableEq, Repr

/-- Options of the LocalDataTrack constructor after the Object.assign merge
with the defaults (src/lib/media/track/localdatatrack.js, lines 37-43):
maxPacketLifeTime and maxRetransmits default to null (none), ordered defaults
to true; name is absent (none) unless the caller supplied one. -/
structure LocalDataTrackOptions where
  maxPacketLifeTime : Option Int
  maxRetransmits : Option Int
  ordered : Bool
  name : Option String
deriving DecidableEq, Repr

/-- The constructor defaults of src/lib/media/track/localdatatrack.js,
lines 37-43: both retry-limiting fields null, ordered true, no name given. -/
def defaultDataTrackOptions : LocalDataTrackOptions :=
  { maxPacketLifeTime := none
    maxRetransmits := none
    ordered := true
    name := none }

/-- A LocalDataTrack (src/lib/media/track/localdatatrack.js): the fields
installed by Object.defineProperties (lines 56-77) plus id, kind and name
set through the Track base constructor call (line 54; the Track base,
lib/media/track/index.js, is not in the source tree — per spec section 4.4
name defaults to id unless explicitly supplied in options). -/
structure LocalDataTrack where
  id : String
  kind : String
  name : String
  dataTrackSender : DataTrackSender
  maxPacketLifeTime : Option Int
  maxRetransmits : Option Int
  ordered : Bool
  reliable : Bool
deriving DecidableEq, Repr

/-- Embeds the LocalDataTrack constructor
(src/lib/media/track/localdatatrack.js, lines 32-78) with an injected
DataTrackSender factory (the options.DataTrackSender seam used by the unit
tests): constructs the sender from (maxPacketLifeTime, maxRetransmits,
ordered), sets id from the sender's id, kind to "data", name from options
(defaulting to the sender's id), and defines reliable as
maxPacketLifeTime === null && maxRetransmits === null. -/
def mkLocalDataTrack
    (senderFactory : Option Int → Option Int → Bool → DataTrackSender)
    (options : LocalDataTrackOptions) : LocalDataTrack :=
  let dataTrackSender :=
    senderFactory options.maxPacketLifeTime options.maxRetransmits options.ordered
  { id := dataTrackSender.id
    kind := "data"
    name := options.name.getD dataTrackSender.id
    dataTrackSender := dataTrackSender
    maxPacketLifeTime := options.maxPacketLifeTime
    maxRetransmits := options.maxRetransmits
    ordered := options.ordered
    reliable := options.maxPacketLifeTime.isNone && options.maxRetransmits.isNone }

/-- One observable call of DataChannelSender#send: which sender received it
and the payload it was handed. -/
structure SenderSendCall (π : Type) where
  senderId : String
  payload : π
deriving DecidableEq, Repr

/-- Embeds LocalDataTrack.prototype.send
(src/lib/media/track/localdatatrack.js, lines 87-89):
`this._dataTrackSender.send(data);` — the track's own state is untouched and
the single effect is one send call on the owned sender carrying the payload
as given. -/
def LocalDataTrack.send (t : LocalDataTrack) (data : π) :
    LocalDataTrack × List (SenderSendCall π) :=
  (t, [⟨t.dataTrackSender.id, data⟩])

/-- A sample local track-publication entity (sid still unset), used by the
concrete witness instantiations. -/
def sampleLocalTrack : TrackSignaling Unit :=
  { id := "t1"
    kind := "audio"
    name := "n1"
    isEnabled := true
    sid := none
    transport := none }

/-- A sample server record carrying a concrete sid, used by the concrete
witness instantiations. -/
def sampleRecord : TrackState :=
  { id := "t1"
    enabled := false
    kind := "audio"
    name := "n1"
    sid := "MT123" }

theorem enable_emitted_iff_flip (s : TrackSignaling τ) (b : Option Bool) :
    (s.enable b).emitted = ((s.enable b).post.isEnabled != s.isEnabled) := by
  by_cases h : s.isEnabled = b.getD true
  · simp [TrackSignaling.enable, h]
  · have h2 : (b.getD true != s.isEnabled) = true :=
      bne_iff_ne.mpr fun h2 => h h2.symm
    simp [TrackSignaling.enable, h, h2]

theorem stepOp_emitted_iff_flip (s : TrackSignaling τ) (op : SigOp τ) :
    (stepOp s op).emitted = ((stepOp s op).post.isEnabled != s.isEnabled) := by
  cases op with
  | enable b => exact enable_emitted_iff_flip s b
  | disable => exact enable_emitted_iff_flip s (some false)
  | update r => exact enable_emitted_iff_flip s (some r.enabled)
  | setTransceiver x =>
    by_cases h : s.transport.isSome = true <;>
      simp [stepOp, TrackSignaling.setMediaStreamTrackOrDataTrackTransceiver, h]

theorem enable_transport_unchanged (s : TrackSignaling τ) (b : Option Bool) :
    (s.enable b).post.transport = s.transport := by
  by_cases h : s.isEnabled = b.getD true <;> simp [TrackSignaling.enable, h]

theorem stepOp_transport_some (s : TrackSignaling τ) (op : SigOp τ) (x : τ)
    (h : s.transport = some x) : (stepOp s op).post.transport = some x := by
  cases op with
  | enable b => rw [show stepOp s (.enable b) = s.enable b from rfl,
      enable_transport_unchanged]; exact h
  | disable => rw [show stepOp s .disable = s.enable (some false) from rfl,
      enable_transport_unchanged]; exact h
  | update r => rw [show stepOp s (.update r) = s.enable (some r.enabled) from rfl,
      enable_transport_unchanged]; exact h
  | setTransceiver y =>
    simp [stepOp, TrackSignaling.setMediaStreamTrackOrDataTrackTransceiver, h]

theorem runOps_transport_some (s : TrackSignaling τ) (ops : List (SigOp τ)) (x : τ)
    (h : s.transport = some x) : (runOps s ops).transport = some x := by
  induction ops generalizing s with
  | nil => exact h
  | cons op ops ih => exact ih _ (stepOp_transport_some s op x h)

theorem runOps_transport_some_of_step (s : TrackSignaling τ) (op : SigOp τ)
    (ops : List (SigOp τ)) (x : τ) (h : (stepOp s op).post.transport = some x) :
    (runOps s (op :: ops)).transport = some x :=
  runOps_transport_some (stepOp s op).post ops x h

/-- C1: For every track-signaling entity and every sequence of
enable/disable/update (and transceiver-set) calls, an "updated" notification
is emitted by a call if and only if the value of isEnabled immediately after
that call differs from its value immediately before it; calls that leave
isEnabled unchanged emit no notification. Stated as: the per-call emission
trace coincides with the per-call flip trace of isEnabled. -/
theorem updated_emitted_iff_isEnabled_flips (τ : Type) (s : TrackSignaling τ)
    (ops : List (SigOp τ)) :
    emitTrace s ops = flips s.isEnabled (enabledTrace s ops) := by
  induction ops generalizing s with
  | nil => rfl
  | cons op ops ih =>
    simp only [emitTrace, enabledTrace, flips]
    rw [stepOp_emitted_iff_flip s op, ih]

/-- C2: No "updated" notification is emitted by
LocalTrackPublicationV2#update: in particular, calling update on an entity
whose sid is unset with a record carrying a concrete sid sets sid and emits
no notification. -/
theorem local_update_no_notification_for_sid (τ : Type) (s : TrackSignaling τ)
    (r : TrackState) (h : s.sid = none) :
    (LocalTrackPublicationV2.update s r).emitted = false ∧
    (LocalTrackPublicationV2.update s r).post.sid = some r.sid := by
  simp [LocalTrackPublicationV2.update, TrackSignaling.setSid, h]

/-- Witness for C2 at a concrete entity and record. -/
theorem local_update_no_notification_for_sid_witness :
    sampleLocalTrack.sid = none ∧
    ((LocalTrackPublicationV2.update sampleLocalTrack sampleRecord).emitted = false ∧
      (LocalTrackPublicationV2.update sampleLocalTrack sampleRecord).post.sid
        = some "MT123") :=
  ⟨rfl, local_update_no_notification_for_sid Unit sampleLocalTrack sampleRecord rfl⟩

/-- C3: For every RemoteTrackSignaling entity and every incoming trackState
record, update leaves id, kind, name and sid unchanged, whatever those
fields hold in the record; only isEnabled may change (the transport slot is
also untouched). -/
theorem remote_update_preserves_identity_fields (τ : Type)
    (s : TrackSignaling τ) (r : TrackState) :
    (RemoteTrackV2.update s r).post.id = s.id ∧
    (RemoteTrackV2.update s r).post.kind = s.kind ∧
    (RemoteTrackV2.update s r).post.name = s.name ∧
    (RemoteTrackV2.update s r).post.sid = s.sid ∧
    (RemoteTrackV2.update s r).post.transport = s.transport := by
  by_cases h : s.isEnabled = r.enabled <;>
    simp [RemoteTrackV2.update, TrackSignaling.enable, h]

/-- C4: For a RemoteTrackV2 constructed from any record and any transport
objects x and y, the promise returned by the transceiver getter resolves to
x whether the getter ran before or after the setter call with x (and its
resolution survives any sequence of further operations, a second setter call
with y included); a second setter call with y is a silent no-op leaving the
state unchanged and emitting nothing; and the setter returns the entity
itself. -/
theorem transceiver_slot_resolves_once (τ : Type) (r : TrackState) (x y : τ)
    (ops : List (SigOp τ)) :
    getTransceiverResolution
      ((RemoteTrackV2.mk τ r).setMediaStreamTrackOrDataTrackTransceiver x).post ops
      = some x ∧
    getTransceiverResolution (RemoteTrackV2.mk τ r)
      (SigOp.setTransceiver x :: ops) = some x ∧
    ((RemoteTrackV2.mk τ r).setMediaStreamTrackOrDataTrackTransceiver
        x).post.setMediaStreamTrackOrDataTrackTransceiver y
      = ⟨((RemoteTrackV2.mk τ r).setMediaStreamTrackOrDataTrackTransceiver x).post,
          false, true⟩ ∧
    ((RemoteTrackV2.mk τ r).setMediaStreamTrackOrDataTrackTransceiver
        x).returnsSelf = true := by
  have h1 : ((RemoteTrackV2.mk τ r).setMediaStreamTrackOrDataTrackTransceiver
      x).post.transport = some x := by
    simp [RemoteTrackV2.mk, TrackSignaling.setMediaStreamTrackOrDataTrackTransceiver]
  refine ⟨runOps_transport_some _ ops x h1,
    runOps_transport_some_of_step _ (SigOp.setTransceiver x) ops x h1, ?_, ?_⟩
  · simp [RemoteTrackV2.mk, TrackSignaling.setMediaStreamTrackOrDataTrackTransceiver]
  · simp [RemoteTrackV2.mk, TrackSignaling.setMediaStreamTrackOrDataTrackTransceiver]

/-- C5: For every LocalTrackPublicationSignaling entity whose sid is still
unset, update(record) sets sid from record.sid and mutates nothing else
(id, kind, name, the transport slot, and in particular isEnabled are
unchanged regardless of record.enabled), returns the entity itself, and a
second update with the same record is idempotent: the state is unchanged and
no notification is emitted. -/
theorem local_update_assigns_sid_idempotently (τ : Type) (s : TrackSignaling τ)
    (r : TrackState) (h : s.sid = none) :
    (LocalTrackPublicationV2.update s r).post.sid = some r.sid ∧
    (LocalTrackPublicationV2.update s r).post.id = s.id ∧
    (LocalTrackPublicationV2.update s r).post.kind = s.kind ∧
    (LocalTrackPublicationV2.update s r).post.name = s.name ∧
    (LocalTrackPublicationV2.update s r).post.isEnabled = s.isEnabled ∧
    (LocalTrackPublicationV2.update s r).post.transport = s.transport ∧
    (LocalTrackPublicationV2.update s r).returnsSelf = true ∧
    LocalTrackPublicationV2.update (LocalTrackPublicationV2.update s r).post r
      = ⟨(LocalTrackPublicationV2.update s r).post, false, true⟩ := by
  simp [LocalTrackPublicationV2.update, TrackSignaling.setSid, h]

/-- Witness for C5 at a concrete entity and record. -/
theorem local_update_assigns_sid_idempotently_witness :
    sampleLocalTrack.sid = none ∧
    ((LocalTrackPublicationV2.update sampleLocalTrack sampleRecord).post.sid
        = some "MT123" ∧
      (LocalTrackPublicationV2.update sampleLocalTrack sampleRecord).post.id
        = sampleLocalTrack.id ∧
      (LocalTrackPublicationV2.update sampleLocalTrack sampleRecord).post.kind
        = sampleLocalTrack.kind ∧
      (LocalTrackPublicationV2.update sampleLocalTrack sampleRecord).post.name
        = sampleLocalTrack.name ∧
      (LocalTrackPublicationV2.update sampleLocalTrack sampleRecord).post.isEnabled
        = sampleLocalTrack.isEnabled ∧
      (LocalTrackPublicationV2.update sampleLocalTrack sampleRecord).post.transport
        = sampleLocalTrack.transport ∧
      (LocalTrackPublicationV2.update sampleLocalTrack sampleRecord).returnsSelf
        = true ∧
      LocalTrackPublicationV2.update
          (LocalTrackPublicationV2.update sampleLocalTrack sampleRecord).post
          sampleRecord
        = ⟨(LocalTrackPublicationV2.update sampleLocalTrack sampleRecord).post,
            false, true⟩) :=
  ⟨rfl, local_update_assigns_sid_idempotently Unit sampleLocalTrack sampleRecord rfl⟩

/-- C6: For every LocalTrackPublicationSignaling entity, getState returns a
record containing exactly the keys enabled, id, kind, name with the entity's
current values, and never contains a sid key, whether or not sid has been
assigned. (The record is built fresh from the current field values on each
call, so it is a snapshot: later mutation of the entity cannot alter a
record returned earlier.) -/
theorem getState_excludes_sid (τ : Type) (s : TrackSignaling τ) :
    LocalTrackPublicationV2.getState s =
      [("enabled", JsVal.bool s.isEnabled), ("id", JsVal.str s.id),
       ("kind", JsVal.str s.kind), ("name", JsVal.str s.name)] ∧
    (LocalTrackPublicationV2.getState s).map Prod.fst
      = ["enabled", "id", "kind", "name"] ∧
    "sid" ∉ (LocalTrackPublicationV2.getState s).map Prod.fst := by
  refine ⟨rfl, rfl, ?_⟩
  simp [LocalTrackPublicationV2.getState]

/-- C7: A LocalDataTrack reports reliable true if and only if both
maxPacketLifeTime and maxRetransmits are null; in particular, with the
constructor defaults (both null) reliable is true. -/
theorem reliable_iff_no_retry_limits
    (f : Option Int → Option Int → Bool → DataTrackSender)
    (o : LocalDataTrackOptions) :
    ((mkLocalDataTrack f o).reliable = true ↔
      o.maxPacketLifeTime = none ∧ o.maxRetransmits = none) ∧
    (mkLocalDataTrack f defaultDataTrackOptions).reliable = true := by
  constructor
  · simp [mkLocalDataTrack, Option.isNone_iff_eq_none]
  · rfl

/-- C8: For every LocalDataTrack constructed through a sender-producing
factory, id equals the constructed sender's id, kind equals "data", and name
equals the supplied options name when present, otherwise defaults to the
sender's id. -/
theorem localdatatrack_id_kind_name
    (f : Option Int → Option Int → Bool → DataTrackSender)
    (o : LocalDataTrackOptions) :
    (mkLocalDataTrack f o).id
      = (f o.maxPacketLifeTime o.maxRetransmits o.ordered).id ∧
    (mkLocalDataTrack f o).kind = "data" ∧
    (mkLocalDataTrack f o).name
      = o.name.getD (f o.maxPacketLifeTime o.maxRetransmits o.ordered).id :=
  ⟨rfl, rfl, rfl⟩

/-- C9: For every LocalDataTrack and every payload, send makes exactly one
send call, on the track's own sender, with the payload passed through
unmodified, and leaves the track's state unchanged. -/
theorem send_forwards_payload_once (π : Type) (t : LocalDataTrack) (p : π) :
    (t.send p).2 = [⟨t.dataTrackSender.id, p⟩] ∧ (t.send p).1 = t :=
  ⟨rfl, rfl⟩

/-- C10: The fields maxPacketLifeTime, maxRetransmits, ordered, reliable and
the owned sender of a LocalDataTrack are fixed at construction (taking the
values determined by the merged options and the constructed sender) and are
left unchanged by send, the only subsequent operation. -/
theorem localdatatrack_fields_fixed (π : Type)
    (f : Option Int → Option Int → Bool → DataTrackSender)
    (o : LocalDataTrackOptions) (t : LocalDataTrack) (p : π) :
    (mkLocalDataTrack f o).maxPacketLifeTime = o.maxPacketLifeTime ∧
    (mkLocalDataTrack f o).maxRetransmits = o.maxRetransmits ∧
    (mkLocalDataTrack f o).ordered = o.ordered ∧
    (mkLocalDataTrack f o).reliable
      = (o.maxPacketLifeTime.isNone && o.maxRetransmits.isNone) ∧
    (mkLocalDataTrack f o).dataTrackSender
      = f o.maxPacketLifeTime o.maxRetransmits o.ordered ∧
    (t.send p).1.maxPacketLifeTime = t.maxPacketLifeTime ∧
    (t.send p).1.maxRetransmits = t.maxRetransmits ∧
    (t.send p).1.ordered = t.ordered ∧
    (t.send p).1.reliable = t.reliable ∧
    (t.send p).1.dataTrackSender = t.dataTrackSender :=
  ⟨rfl, rfl, rfl, rfl, rfl, rfl, rfl, rfl, rfl, rfl⟩

end TwilioVideo
